import Mathlib

/-!
Shallow embedding of `src/proj_cm33_ns/source/secure_tcp_server.c`
(mtb-example-psoc-edge-ethernet-secure-tcp-server).

Each definition mirrors one function or global of the C source.  Outcomes of
external library calls (`cy_socket_*`, `cy_ecm_*`, FreeRTOS primitives) are
passed in as parameters of the embedded functions, so that the control flow of
the repository's own code is what the theorems are about.  Machine integers
are modelled as `Nat`; the tick/timestamp arithmetic assumes no 32-bit
wraparound (timestamps are monotone and far below 2^32 in every claim).
-/

namespace SecureTcpServer

/-- Abstraction of `cy_rslt_t`: the source only ever distinguishes
`CY_RSLT_SUCCESS`, `CY_RSLT_MODULE_SECURE_SOCKETS_CLOSED` and any other
(error) code, so the result type is embedded with exactly those three
classes. -/
inductive CyRslt where
  | success
  | closed
  | err (code : Nat)
  deriving DecidableEq, Repr

/-- Macro `MAX_ETH_RETRY_COUNT` (line 85): maximum number of connection
retries to the ethernet network. -/
def MAX_ETH_RETRY_COUNT : Nat := 3

/-- Macro `TCP_LED_CMD_LEN` (line 88). -/
def TCP_LED_CMD_LEN : Nat := 1

/-- Macro `LED_ON_CMD` (line 91): the byte `'1'`. -/
def LED_ON_CMD : Nat := 49

/-- Macro `LED_OFF_CMD` (line 92): the byte `'0'`. -/
def LED_OFF_CMD : Nat := 48

/-- Macro `DEBOUNCE_TIME_MS` (line 103). -/
def DEBOUNCE_TIME_MS : Nat := 100

/-- Macro `NULL_CHARACTER` (line 101): the NUL byte written as the string
terminator. -/
def NULL_CHARACTER : Nat := 0

/-- BSP constant `CYBSP_LED_STATE_ON`, abstracted to `Bool`: the source only
stores the two distinct constants in the `bool led_state` flag and compares
against them, so the two states are embedded as the two booleans. -/
def CYBSP_LED_STATE_ON : Bool := true

/-- BSP constant `CYBSP_LED_STATE_OFF`, see `CYBSP_LED_STATE_ON`. -/
def CYBSP_LED_STATE_OFF : Bool := false

/-- Modelled from the spec: the FreeRTOS tick period in milliseconds.
`configTICK_RATE_HZ` lives in the project's FreeRTOSConfig.h, which is not
under src/; the spec states all debounce thresholds in milliseconds
(DEBOUNCE_TIME_MS), so the tick period is taken as 1 ms per tick. -/
def portTICK_PERIOD_MS : Nat := 1

/-! ## Debounced event source: `user_button_interrupt_handler` (lines 681-741) -/

/-- The mutable state read and written by the button ISR: globals
`button_debouncing` (line 165), `button_debounce_timestamp` (line 166) and
the mirrored LED flag `led_state` (line 153, read-only here). -/
structure DebounceState where
  button_debouncing : Bool
  button_debounce_timestamp : Nat
  led_state : Bool
  deriving DecidableEq, Repr

/-- Effect of one ISR invocation: the updated globals and the value passed to
`xTaskNotifyFromISR`, if the notify call was made (`none` when the edge was
rejected and no notification was sent). -/
structure IsrEffect where
  state : DebounceState
  notified : Option Nat
  deriving DecidableEq, Repr

/-- Startup values of the globals: `button_debouncing = false` (line 165),
`button_debounce_timestamp = 0` (line 166),
`led_state = CYBSP_LED_STATE_OFF` (line 153). -/
def initDebounceState : DebounceState :=
  { button_debouncing := false
    button_debounce_timestamp := 0
    led_state := CYBSP_LED_STATE_OFF }

/-- `user_button_interrupt_handler` (lines 681-741), for an invocation in
which BTN1 reports a pending falling-edge interrupt.  `tick` is the value of
`xTaskGetTickCount()` during this invocation.  Mirrors the source exactly:
the debounce test and timestamp update (lines 693-706), the command
computation from `led_state`, the clearing of `button_debouncing` and the
`xTaskNotifyFromISR` call (lines 708-726). -/
def user_button_interrupt_handler (s : DebounceState) (tick : Nat) : IsrEffect :=
  let now := tick * portTICK_PERIOD_MS
  let s1 :=
    if ¬ s.button_debouncing then
      if now - s.button_debounce_timestamp ≥ DEBOUNCE_TIME_MS * portTICK_PERIOD_MS then
        { s with button_debouncing := true, button_debounce_timestamp := now }
      else s
    else s
  if s1.button_debouncing then
    let led_state_cmd := if CYBSP_LED_STATE_ON = s1.led_state then LED_OFF_CMD else LED_ON_CMD
    { state := { s1 with button_debouncing := false }, notified := some led_state_cmd }
  else
    { state := s1, notified := none }

/-- State after a sequence of ISR invocations at the given tick counts. -/
def isr_run (s : DebounceState) : List Nat → DebounceState
  | [] => s
  | t :: ts => isr_run (user_button_interrupt_handler s t).state ts

/-- The commands signalled (in order) over a sequence of ISR invocations at
the given tick counts. -/
def isr_signals (s : DebounceState) : List Nat → List Nat
  | [] => []
  | t :: ts =>
    let e := user_button_interrupt_handler s t
    (match e.notified with
     | some c => [c]
     | none => []) ++ isr_signals e.state ts

/-! ## Cross-context signal channel: FreeRTOS task notification

The producer is `xTaskNotifyFromISR(server_task_handle, led_state_cmd,
eSetValueWithoutOverwrite, ...)` (lines 723-724); the consumer is
`xTaskNotifyWait(0, 0, &led_state_cmd, portMAX_DELAY)` (lines 295-296).
The notification slot semantics (a single pending flag and a single 32-bit
value per task; `eSetValueWithoutOverwrite` writes the value and sets the
flag only when no notification is pending, otherwise performs no action and
returns pdFAIL; `xTaskNotifyWait` blocks until the flag is set, then returns
the stored value and clears the flag) are those documented for the FreeRTOS
task-notification API used by the source. -/

/-- A task's notification slot: pending flag and stored value. -/
structure NotifyState where
  pending : Bool
  notif_value : Nat
  deriving DecidableEq, Repr

/-- `xTaskNotifyFromISR` with action `eSetValueWithoutOverwrite`: if a
notification is already pending the call performs no action and returns
`false` (pdFAIL); otherwise it stores the value, marks the notification
pending and returns `true` (pdPASS). -/
def xTaskNotify_setValueWithoutOverwrite (s : NotifyState) (v : Nat) : NotifyState × Bool :=
  if s.pending then (s, false)
  else ({ pending := true, notif_value := v }, true)

/-- `xTaskNotifyWait` at the moment it returns (it blocks until a
notification is pending): yields the stored value and clears the pending
flag. -/
def xTaskNotifyWait (s : NotifyState) : Nat × NotifyState :=
  (s.notif_value, { s with pending := false })

/-! ## Receive path: `tcp_receive_msg_handler` (lines 588-631) -/

/-- The byte contents of the string literal compared against in
`strcmp(message_buffer, "LED ON ACK")` (line 605). -/
def LED_ON_ACK : List Nat := [76, 69, 68, 32, 79, 78, 32, 65, 67, 75]

/-- C `strcmp(a, b) == 0` on NUL-terminated byte strings, each given as the
raw buffer bytes including the terminator: the comparison walks both buffers
until a mismatching byte (not equal) or a NUL byte (equal).  The source
always supplies buffers that contain a NUL, so the end-of-list cases are
never reached. -/
def cstr_eq : List Nat → List Nat → Bool
  | a :: as, b :: bs =>
    if a = b then
      if a = NULL_CHARACTER then true else cstr_eq as bs
    else false
  | [], [] => true
  | [], _ :: _ => false
  | _ :: _, [] => false

/-- The global flags of the server touched by the socket callbacks and the
dispatch loop: `led_state` (line 153) and `client_connected` (line 162). -/
structure ServerFlags where
  led_state : Bool
  client_connected : Bool
  deriving DecidableEq, Repr

/-- Effect of one invocation of `tcp_receive_msg_handler`: the returned
result, the index into `message_buffer` at which the NUL terminator was
written (`some` exactly when the receive succeeded, line 601), whether
`cy_socket_disconnect` / `cy_socket_delete` were called, and the updated
global flags. -/
structure RecvEffect where
  result : CyRslt
  terminator_index : Option Nat
  disconnect_called : Bool
  delete_called : Bool
  flags : ServerFlags
  deriving DecidableEq, Repr

/-- `tcp_receive_msg_handler` (lines 588-631).  `recv_result` is the result
of `cy_socket_recv` and `payload` the bytes it stored in `message_buffer`
(so `bytes_received = payload.length`; the recv call caps it at
`MAX_TCP_RECV_BUFFER_SIZE`).  On success the handler writes the terminator
at index `bytes_received` (line 601) and sets `led_state` from the strcmp
against "LED ON ACK" (lines 605-612); on `CY_RSLT_MODULE_SECURE_SOCKETS_CLOSED`
it disconnects and deletes the socket (lines 618-624); on any other error it
only logs.  No branch writes `client_connected`. -/
def tcp_receive_msg_handler (flags : ServerFlags) (recv_result : CyRslt)
    (payload : List Nat) : RecvEffect :=
  match recv_result with
  | CyRslt.success =>
    let led1 :=
      if cstr_eq (payload ++ [NULL_CHARACTER]) (LED_ON_ACK ++ [NULL_CHARACTER]) then
        CYBSP_LED_STATE_ON
      else
        CYBSP_LED_STATE_OFF
    { result := CyRslt.success
      terminator_index := some payload.length
      disconnect_called := false
      delete_called := false
      flags := { flags with led_state := led1 } }
  | r =>
    if r = CyRslt.closed then
      { result := r
        terminator_index := none
        disconnect_called := true
        delete_called := true
        flags := flags }
    else
      { result := r
        terminator_index := none
        disconnect_called := false
        delete_called := false
        flags := flags }

/-- Whether a store at index `idx` of a C array of `cap` elements stays in
bounds. -/
def writeInBounds (cap idx : Nat) : Bool := idx < cap

/-- Modelled from the spec: `MAX_TCP_RECV_BUFFER_SIZE`, the fixed receive
buffer capacity, is defined in secure_tcp_server.h, which is not under src/;
the spec fixes no numeric value (the buffer holds "a variable short
acknowledgement string"), so a representative capacity of 20 bytes is used.
No theorem depends on the particular value: the boundary fact below holds
verbatim for any capacity. -/
def MAX_TCP_RECV_BUFFER_SIZE : Nat := 20

/-- The bytes of a payload strictly before its first NUL byte: the portion
of the stored message that `strcmp` actually inspects, given that the
handler writes a NUL right after the payload. -/
def bytesBeforeNul (payload : List Nat) : List Nat :=
  payload.takeWhile (fun b => decide (b ≠ NULL_CHARACTER))

/-! ## Command dispatch loop body: `tcp_secure_server_task` (lines 292-328) -/

/-- Effect of one iteration of the dispatch loop after `xTaskNotifyWait`
returned the command `led_state_cmd`: whether `cy_socket_send` was invoked
and with which byte, whether the peer-closed recovery path ran
(`cy_socket_disconnect` / `cy_socket_delete`, lines 319-325), and the global
flags afterwards. -/
structure SendEffect where
  send_called : Bool
  sent_value : Option Nat
  disconnect_called : Bool
  delete_called : Bool
  flags : ServerFlags
  deriving DecidableEq, Repr

/-- One iteration of the `while(true)` loop of `tcp_secure_server_task`
(lines 292-328) after the notify wait delivered `led_state_cmd`.
`send_result` is the outcome `cy_socket_send` would report (only consulted
when the send is actually invoked).  The send runs only under
`if(client_connected)` (line 300); on `CY_RSLT_MODULE_SECURE_SOCKETS_CLOSED`
the socket is disconnected and deleted (lines 319-325); no branch writes
`client_connected` or `led_state`. -/
def dispatch_iteration (flags : ServerFlags) (led_state_cmd : Nat)
    (send_result : CyRslt) : SendEffect :=
  if flags.client_connected then
    if send_result = CyRslt.success then
      { send_called := true
        sent_value := some led_state_cmd
        disconnect_called := false
        delete_called := false
        flags := flags }
    else if send_result = CyRslt.closed then
      { send_called := true
        sent_value := some led_state_cmd
        disconnect_called := true
        delete_called := true
        flags := flags }
    else
      { send_called := true
        sent_value := some led_state_cmd
        disconnect_called := false
        delete_called := false
        flags := flags }
  else
    { send_called := false
      sent_value := none
      disconnect_called := false
      delete_called := false
      flags := flags }

/-! ## Network bring-up: `connect_to_ethernet` (lines 345-416) -/

/-- Modelled from the spec: `TCP_SERVER_PORT`, the single configured TCP
port; its value is set in secure_tcp_server.h, which is not under src/, and
the spec fixes no number, so a representative constant is used (no theorem
depends on its value). -/
def TCP_SERVER_PORT : Nat := 50007

/-- Outcome of `connect_to_ethernet`: the returned `cy_rslt_t`, the value
installed into the global `tcp_server_addr` as (ip, port) — `none` when the
global was never written — and how many times `cy_ecm_connect` was called. -/
structure EthOutcome where
  result : CyRslt
  tcp_server_addr : Option (Nat × Nat)
  attempts : Nat
  deriving DecidableEq, Repr

/-- The `while(true)` retry loop of `connect_to_ethernet` (lines 375-414).
`attempt i` gives the result of the `(i+1)`-th `cy_ecm_connect` call and the
IP address it would assign.  `i` counts the calls already made (each earlier
call failed, so `retry_count = i` at loop entry); on failure the count is
incremented and compared against `MAX_ETH_RETRY_COUNT` (lines 380-385).  On
success the address and `TCP_SERVER_PORT` are stored into `tcp_server_addr`
(lines 407-409) and the loop breaks.  The `fuel` argument only bounds the
recursion; with `fuel = MAX_ETH_RETRY_COUNT` it never runs out. -/
def connect_to_ethernet_loop (attempt : Nat → CyRslt × Nat) : Nat → Nat → EthOutcome
  | i, 0 =>
    { result := CyRslt.err 0, tcp_server_addr := none, attempts := i }
  | i, fuel + 1 =>
    if (attempt i).1 = CyRslt.success then
      { result := CyRslt.success
        tcp_server_addr := some ((attempt i).2, TCP_SERVER_PORT)
        attempts := i + 1 }
    else if i + 1 ≥ MAX_ETH_RETRY_COUNT then
      { result := (attempt i).1, tcp_server_addr := none, attempts := i + 1 }
    else
      connect_to_ethernet_loop attempt (i + 1) fuel

/-- `connect_to_ethernet` (lines 345-416) from the point where the retry
loop is entered (the preceding `cy_ecm_init` / `cy_ecm_ethif_init` steps
halt the whole application on failure and are not part of any claim). -/
def connect_to_ethernet (attempt : Nat → CyRslt × Nat) : EthOutcome :=
  connect_to_ethernet_loop attempt 0 MAX_ETH_RETRY_COUNT

/-- The initialization sequence of `tcp_secure_server_task` between
`connect_to_ethernet` and `create_secure_tcp_server_socket` (lines 227-270):
each failing step calls `handle_app_error()`, which halts the task, so
`create_secure_tcp_server_socket` is invoked exactly when every earlier step
succeeded.  Returns whether the socket-creation call is reached. -/
def socket_setup_attempted (eth_result socket_init_result tls_identity_result
    root_ca_result : CyRslt) : Bool :=
  if eth_result ≠ CyRslt.success then false
  else if socket_init_result ≠ CyRslt.success then false
  else if tls_identity_result ≠ CyRslt.success then false
  else if root_ca_result ≠ CyRslt.success then false
  else true

/-! ## Socket setup: `create_secure_tcp_server_socket` (lines 433-531) -/

/-- The eight externally visible steps of `create_secure_tcp_server_socket`,
in source order. -/
inductive SetupStep where
  | socketCreate
  | rcvTimeout
  | connectCallback
  | receiveCallback
  | disconnectCallback
  | tlsIdentity
  | tlsAuthMode
  | sockBind
  deriving DecidableEq, Repr

/-- The outcomes the socket library would report for each of the eight
steps of `create_secure_tcp_server_socket` (a step's outcome is consulted
only if that step is actually executed). -/
structure SetupOutcomes where
  create_res : CyRslt
  rcvtimeo_res : CyRslt
  connect_cb_res : CyRslt
  receive_cb_res : CyRslt
  disconnect_cb_res : CyRslt
  tls_identity_res : CyRslt
  auth_mode_res : CyRslt
  bind_res : CyRslt
  deriving DecidableEq, Repr

/-- All eight steps in their source order. -/
def allSetupSteps : List SetupStep :=
  [SetupStep.socketCreate, SetupStep.rcvTimeout, SetupStep.connectCallback,
   SetupStep.receiveCallback, SetupStep.disconnectCallback,
   SetupStep.tlsIdentity, SetupStep.tlsAuthMode, SetupStep.sockBind]

/-- `create_secure_tcp_server_socket` (lines 433-531): returns the
`cy_rslt_t` the function returns together with the list of steps executed,
in order.  Each of socket creation (449-459), receive timeout (462-469), the
three callback registrations (475-508), and TLS identity (511-517) checks
its result and returns early on failure.  The TLS auth-mode call (520-521)
is executed but its result is never examined; bind (524-528) then always
runs and its result is what the function returns. -/
def create_secure_tcp_server_socket (o : SetupOutcomes) : CyRslt × List SetupStep :=
  if o.create_res ≠ CyRslt.success then
    (o.create_res, [SetupStep.socketCreate])
  else if o.rcvtimeo_res ≠ CyRslt.success then
    (o.rcvtimeo_res, [SetupStep.socketCreate, SetupStep.rcvTimeout])
  else if o.connect_cb_res ≠ CyRslt.success then
    (o.connect_cb_res, [SetupStep.socketCreate, SetupStep.rcvTimeout,
      SetupStep.connectCallback])
  else if o.receive_cb_res ≠ CyRslt.success then
    (o.receive_cb_res, [SetupStep.socketCreate, SetupStep.rcvTimeout,
      SetupStep.connectCallback, SetupStep.receiveCallback])
  else if o.disconnect_cb_res ≠ CyRslt.success then
    (o.disconnect_cb_res, [SetupStep.socketCreate, SetupStep.rcvTimeout,
      SetupStep.connectCallback, SetupStep.receiveCallback,
      SetupStep.disconnectCallback])
  else if o.tls_identity_res ≠ CyRslt.success then
    (o.tls_identity_res, [SetupStep.socketCreate, SetupStep.rcvTimeout,
      SetupStep.connectCallback, SetupStep.receiveCallback,
      SetupStep.disconnectCallback, SetupStep.tlsIdentity])
  else
    (o.bind_res, allSetupSteps)

/-! ## Connection lifecycle as a state machine

The three socket-event callbacks (`tcp_connection_handler`, lines 547-572;
`tcp_receive_msg_handler`, lines 588-631; `tcp_disconnection_handler`, lines
647-664) and the dispatch loop's send path (lines 292-328) all run in one
execution context (the transport serializes callbacks for a socket, spec §5),
so a run of the server is a sequence of such events applied to the global
state.  Handles are modelled as `Nat` identifiers; `live_handles` tracks the
handles obtained from `cy_socket_accept` and not yet passed to
`cy_socket_delete` (the "live" client handles). -/

/-- One connection-lifecycle event, carrying the outcome the transport
reports for the library call inside the corresponding handler. -/
inductive ConnEvent where
  | connectEv (h : Nat) (accept_result : CyRslt)
  | recvEv (r : CyRslt) (payload : List Nat)
  | disconnectEv
  | sendEv (cmd : Nat) (send_result : CyRslt)
  deriving DecidableEq, Repr

/-- The connection-related globals: `client_connected` (line 162),
`client_handle` (line 137), `led_state` (line 153), plus the ghost list of
live (accepted, not yet deleted) handles. -/
structure ConnState where
  client_connected : Bool
  client_handle : Option Nat
  led_state : Bool
  live_handles : List Nat
  deriving DecidableEq, Repr

/-- Startup values of the connection globals (`client_connected` is a
zero-initialized C global, line 162). -/
def initConnState : ConnState :=
  { client_connected := false
    client_handle := none
    led_state := CYBSP_LED_STATE_OFF
    live_handles := [] }

/-- Effect of `cy_socket_delete` on the current client handle: the handle
stored in `client_handle` stops being live (the source passes exactly that
handle to disconnect/delete in all three recovery paths). -/
def deleteCurrent (s : ConnState) : List Nat :=
  match s.client_handle with
  | some h => s.live_handles.erase h
  | none => s.live_handles

/-- One step of the connection state machine, per event:
`connectEv` is `tcp_connection_handler` (lines 547-572): success stores the
accepted handle and sets `client_connected = true` (lines 552-561), failure
only logs (lines 563-569).
`recvEv` is `tcp_receive_msg_handler` (lines 588-631): success updates
`led_state` (lines 598-613), the peer-closed error disconnects and deletes
the socket without touching `client_connected` (lines 618-624), other errors
only log.
`disconnectEv` is `tcp_disconnection_handler` (lines 647-664): disconnects,
deletes, and sets `client_connected = false`.
`sendEv` is one dispatch-loop iteration (lines 292-328): the send runs only
when `client_connected`; the peer-closed error disconnects and deletes
without touching `client_connected` (lines 319-325). -/
def connStep (s : ConnState) : ConnEvent → ConnState
  | ConnEvent.connectEv h r =>
    if r = CyRslt.success then
      { s with client_connected := true
               client_handle := some h
               live_handles := h :: s.live_handles }
    else s
  | ConnEvent.recvEv r payload =>
    if r = CyRslt.success then
      { s with led_state :=
          if cstr_eq (payload ++ [NULL_CHARACTER]) (LED_ON_ACK ++ [NULL_CHARACTER]) then
            CYBSP_LED_STATE_ON
          else
            CYBSP_LED_STATE_OFF }
    else if r = CyRslt.closed then
      { s with live_handles := deleteCurrent s }
    else s
  | ConnEvent.disconnectEv =>
    { s with live_handles := deleteCurrent s, client_connected := false }
  | ConnEvent.sendEv _ r =>
    if s.client_connected then
      if r = CyRslt.closed then { s with live_handles := deleteCurrent s } else s
    else s

/-- State after a sequence of connection events. -/
def connRun (s : ConnState) : List ConnEvent → ConnState
  | [] => s
  | e :: es => connRun (connStep s e) es

/-- Whether an event is a delivery of `tcp_connection_handler`. -/
def isConnectEv : ConnEvent → Bool
  | ConnEvent.connectEv _ _ => true
  | _ => false

/-- Whether an event is an `on_disconnect` delivery or carries the
peer-closed error (from the receive or the send path). -/
def isDisconnectOrPeerClosed : ConnEvent → Bool
  | ConnEvent.disconnectEv => true
  | ConnEvent.recvEv r _ => decide (r = CyRslt.closed)
  | ConnEvent.sendEv _ r => decide (r = CyRslt.closed)
  | ConnEvent.connectEv _ _ => false

/-- Reachable (well-formed) event sequences from a given state: the
transport delivers a new connect request only after the previous client's
disconnect has run (spec §3: "disconnect always runs before a new accept is
delivered by the underlying transport"), i.e. only while
`client_connected = false`. -/
def wfFrom (s : ConnState) : List ConnEvent → Bool
  | [] => true
  | e :: es => (!(isConnectEv e) || !s.client_connected) && wfFrom (connStep s e) es

/-- Invariant of the connection state machine: at most one live handle, no
live handle while disconnected, and every live handle is the one stored in
`client_handle`. -/
def ConnInv (s : ConnState) : Prop :=
  s.live_handles.length ≤ 1 ∧
  (s.client_connected = false → s.live_handles = []) ∧
  (∀ x ∈ s.live_handles, s.client_handle = some x)

/-! ## Shared helper lemmas -/

/-- `strcmp`-equality of a NUL-terminated payload buffer against a
NUL-terminated literal without inner NULs is equality of the payload's bytes
before its first NUL with the literal. -/
lemma cstr_eq_iff_bytesBeforeNul (p q : List Nat) (hq : NULL_CHARACTER ∉ q) :
    (cstr_eq (p ++ [NULL_CHARACTER]) (q ++ [NULL_CHARACTER]) = true) ↔
      bytesBeforeNul p = q := by
  induction p generalizing q with
  | nil =>
    cases q with
    | nil => simp [cstr_eq, bytesBeforeNul]
    | cons b bs =>
      have hb : (NULL_CHARACTER : Nat) ≠ b := by
        intro h
        exact hq (by simp [← h])
      simp [cstr_eq, bytesBeforeNul, hb]
  | cons a as ih =>
    cases q with
    | nil =>
      by_cases ha : a = NULL_CHARACTER
      · simp [cstr_eq, bytesBeforeNul, ha]
      · simp [cstr_eq, bytesBeforeNul, ha]
    | cons b bs =>
      have hb : b ≠ NULL_CHARACTER := by
        intro h
        exact hq (by simp [← h])
      by_cases hab : a = b
      · subst hab
        have hrec := ih bs (fun h => hq (List.mem_cons_of_mem _ h))
        simp [cstr_eq, bytesBeforeNul, hb, hrec]
      · by_cases ha : a = NULL_CHARACTER
        · simp [cstr_eq, bytesBeforeNul, ha, hab, Ne.symm hb]
        · simp [cstr_eq, bytesBeforeNul, ha, hab]

/-! ## Claims -/

/-- C2 (code_bug): the claim demands that the terminator index be strictly
below the buffer capacity for every successful receive.  The code writes the
terminator at index `bytes_received` (line 601) while `cy_socket_recv` is
called with capacity `MAX_TCP_RECV_BUFFER_SIZE` (line 595), so it can report
exactly that many bytes; at a full-capacity receive the terminator index
equals the capacity and the store is out of bounds — the one-byte overflow
the spec flags as "a latent boundary risk in the original". -/
theorem C2_terminator_write_out_of_bounds :
    (tcp_receive_msg_handler ⟨CYBSP_LED_STATE_OFF, true⟩ CyRslt.success
        (List.replicate MAX_TCP_RECV_BUFFER_SIZE 65)).terminator_index
      = some MAX_TCP_RECV_BUFFER_SIZE ∧
    writeInBounds MAX_TCP_RECV_BUFFER_SIZE MAX_TCP_RECV_BUFFER_SIZE = false := by
  decide

/-- C1 (counterexample): a peer-closed receive error with a connected client
makes the handler disconnect and delete the socket, yet the `client_connected`
flag still reads `true` afterwards, not `false` as the claim states. -/
theorem C1_counterexample :
    (tcp_receive_msg_handler ⟨CYBSP_LED_STATE_OFF, true⟩ CyRslt.closed
        []).disconnect_called = true ∧
    (tcp_receive_msg_handler ⟨CYBSP_LED_STATE_OFF, true⟩ CyRslt.closed
        []).delete_called = true ∧
    ¬ (tcp_receive_msg_handler ⟨CYBSP_LED_STATE_OFF, true⟩ CyRslt.closed
        []).flags.client_connected = false := by
  decide

/-- C1 (amended): on the peer-closed error both the receive path and the
send path disconnect and delete the client socket, but neither modifies any
global flag: `client_connected` keeps its previous value (`true` while a
client was connected), and the state machine returns to Idle only when the
separate disconnect callback runs. -/
theorem C1_peer_closed_disconnects_but_keeps_flag (flags : ServerFlags)
    (payload : List Nat) (cmd : Nat) (hconn : flags.client_connected = true) :
    ((tcp_receive_msg_handler flags CyRslt.closed payload).disconnect_called = true ∧
     (tcp_receive_msg_handler flags CyRslt.closed payload).delete_called = true ∧
     (tcp_receive_msg_handler flags CyRslt.closed payload).flags = flags ∧
     (tcp_receive_msg_handler flags CyRslt.closed payload).flags.client_connected = true) ∧
    ((dispatch_iteration flags cmd CyRslt.closed).disconnect_called = true ∧
     (dispatch_iteration flags cmd CyRslt.closed).delete_called = true ∧
     (dispatch_iteration flags cmd CyRslt.closed).flags = flags ∧
     (dispatch_iteration flags cmd CyRslt.closed).flags.client_connected = true) := by
  constructor
  · refine ⟨?_, ?_, ?_, ?_⟩ <;> simp [tcp_receive_msg_handler, hconn]
  · refine ⟨?_, ?_, ?_, ?_⟩ <;> simp [dispatch_iteration, hconn]

/-- C1 (witness): the amended fact evaluated with a connected client. -/
theorem C1_peer_closed_witness :
    (tcp_receive_msg_handler ⟨CYBSP_LED_STATE_OFF, true⟩ CyRslt.closed
        []).disconnect_called = true ∧
    (dispatch_iteration ⟨CYBSP_LED_STATE_OFF, true⟩ LED_ON_CMD
        CyRslt.closed).disconnect_called = true :=
  ⟨(C1_peer_closed_disconnects_but_keeps_flag ⟨CYBSP_LED_STATE_OFF, true⟩ [] LED_ON_CMD
      rfl).1.1,
   (C1_peer_closed_disconnects_but_keeps_flag ⟨CYBSP_LED_STATE_OFF, true⟩ [] LED_ON_CMD
      rfl).2.1⟩

/-- C3 (counterexample): with a signal already pending (value `'1'`), a new
signal of `'0'` does not overwrite it: the producer call performs no action,
and `wait()` observes the oldest value `'1'`, not the newest `'0'` as the
claim states. -/
theorem C3_counterexample :
    ((xTaskNotify_setValueWithoutOverwrite ⟨false, 0⟩ LED_ON_CMD).1).pending = true ∧
    (xTaskNotifyWait ((xTaskNotify_setValueWithoutOverwrite
        ((xTaskNotify_setValueWithoutOverwrite ⟨false, 0⟩ LED_ON_CMD).1)
        LED_OFF_CMD).1)).1 = LED_ON_CMD ∧
    LED_ON_CMD ≠ LED_OFF_CMD := by
  decide

/-- C3 (amended): the ISR notifies with `eSetValueWithoutOverwrite`
(lines 723-724), so a producer call made while a prior signal is pending and
unconsumed is dropped without blocking — the call performs no action and
reports failure — and the value later observed by `wait()` is the oldest
(first-pending) signalled value, not the newest. -/
theorem C3_pending_signal_drops_new_value (s : NotifyState) (v : Nat)
    (hp : s.pending = true) :
    xTaskNotify_setValueWithoutOverwrite s v = (s, false) ∧
    (xTaskNotifyWait ((xTaskNotify_setValueWithoutOverwrite s v).1)).1 = s.notif_value := by
  constructor
  · simp [xTaskNotify_setValueWithoutOverwrite, hp]
  · simp [xTaskNotify_setValueWithoutOverwrite, xTaskNotifyWait, hp]

/-- C3 (witness): the amended fact evaluated at a pending slot. -/
theorem C3_pending_signal_witness :
    xTaskNotify_setValueWithoutOverwrite ⟨true, LED_ON_CMD⟩ LED_OFF_CMD
      = (⟨true, LED_ON_CMD⟩, false) :=
  (C3_pending_signal_drops_new_value ⟨true, LED_ON_CMD⟩ LED_OFF_CMD rfl).1

/-- C4 (counterexample): when the TLS auth-mode step fails and every other
step succeeds, setup does not abort: the bind step still runs after the
failing step and the function returns success, silently ignoring the
failure. -/
theorem C4_counterexample :
    (SetupOutcomes.mk CyRslt.success CyRslt.success CyRslt.success CyRslt.success
        CyRslt.success CyRslt.success (CyRslt.err 5) CyRslt.success).auth_mode_res
      ≠ CyRslt.success ∧
    create_secure_tcp_server_socket
        (SetupOutcomes.mk CyRslt.success CyRslt.success CyRslt.success CyRslt.success
          CyRslt.success CyRslt.success (CyRslt.err 5) CyRslt.success)
      = (CyRslt.success, allSetupSteps) ∧
    SetupStep.sockBind ∈ (create_secure_tcp_server_socket
        (SetupOutcomes.mk CyRslt.success CyRslt.success CyRslt.success CyRslt.success
          CyRslt.success CyRslt.success (CyRslt.err 5) CyRslt.success)).2 := by
  decide

/-- C4 (amended): `create_secure_tcp_server_socket` performs its steps in
the specified order — socket creation, receive timeout, the three callback
registrations, TLS identity, TLS peer-verification, bind — and every step
except the TLS peer-verification one aborts setup on failure and surfaces
its error to the caller; the peer-verification call's result is ignored
(lines 520-521), so after a successful TLS-identity step the bind step
always runs and its result is what the function returns, regardless of the
auth-mode outcome. -/
theorem C4_setup_aborts_except_auth_mode (o : SetupOutcomes) :
    (o.create_res ≠ CyRslt.success →
      create_secure_tcp_server_socket o = (o.create_res, [SetupStep.socketCreate])) ∧
    (o.create_res = CyRslt.success → o.rcvtimeo_res ≠ CyRslt.success →
      create_secure_tcp_server_socket o
        = (o.rcvtimeo_res, [SetupStep.socketCreate, SetupStep.rcvTimeout])) ∧
    (o.create_res = CyRslt.success → o.rcvtimeo_res = CyRslt.success →
      o.connect_cb_res ≠ CyRslt.success →
      create_secure_tcp_server_socket o
        = (o.connect_cb_res, [SetupStep.socketCreate, SetupStep.rcvTimeout,
            SetupStep.connectCallback])) ∧
    (o.create_res = CyRslt.success → o.rcvtimeo_res = CyRslt.success →
      o.connect_cb_res = CyRslt.success → o.receive_cb_res ≠ CyRslt.success →
      create_secure_tcp_server_socket o
        = (o.receive_cb_res, [SetupStep.socketCreate, SetupStep.rcvTimeout,
            SetupStep.connectCallback, SetupStep.receiveCallback])) ∧
    (o.create_res = CyRslt.success → o.rcvtimeo_res = CyRslt.success →
      o.connect_cb_res = CyRslt.success → o.receive_cb_res = CyRslt.success →
      o.disconnect_cb_res ≠ CyRslt.success →
      create_secure_tcp_server_socket o
        = (o.disconnect_cb_res, [SetupStep.socketCreate, SetupStep.rcvTimeout,
            SetupStep.connectCallback, SetupStep.receiveCallback,
            SetupStep.disconnectCallback])) ∧
    (o.create_res = CyRslt.success → o.rcvtimeo_res = CyRslt.success →
      o.connect_cb_res = CyRslt.success → o.receive_cb_res = CyRslt.success →
      o.disconnect_cb_res = CyRslt.success → o.tls_identity_res ≠ CyRslt.success →
      create_secure_tcp_server_socket o
        = (o.tls_identity_res, [SetupStep.socketCreate, SetupStep.rcvTimeout,
            SetupStep.connectCallback, SetupStep.receiveCallback,
            SetupStep.disconnectCallback, SetupStep.tlsIdentity])) ∧
    (o.create_res = CyRslt.success → o.rcvtimeo_res = CyRslt.success →
      o.connect_cb_res = CyRslt.success → o.receive_cb_res = CyRslt.success →
      o.disconnect_cb_res = CyRslt.success → o.tls_identity_res = CyRslt.success →
      create_secure_tcp_server_socket o = (o.bind_res, allSetupSteps)) := by
  refine ⟨?_, ?_, ?_, ?_, ?_, ?_, ?_⟩ <;>
    intros <;> simp [create_secure_tcp_server_socket, *]

/-- C4 (witness): the amended fact evaluated with every step succeeding. -/
theorem C4_setup_witness :
    create_secure_tcp_server_socket
        (SetupOutcomes.mk CyRslt.success CyRslt.success CyRslt.success CyRslt.success
          CyRslt.success CyRslt.success CyRslt.success CyRslt.success)
      = (CyRslt.success, allSetupSteps) :=
  (C4_setup_aborts_except_auth_mode
      (SetupOutcomes.mk CyRslt.success CyRslt.success CyRslt.success CyRslt.success
        CyRslt.success CyRslt.success CyRslt.success
        CyRslt.success)).2.2.2.2.2.2 rfl rfl rfl rfl rfl rfl

/-- C6 (counterexample): the 11-byte payload consisting of the bytes of
"LED ON ACK" followed by a NUL byte is not byte-exactly the string
"LED ON ACK", yet a successful receive of it sets the mirrored LED state ON,
because `strcmp` stops at the embedded NUL (line 605). -/
theorem C6_counterexample :
    LED_ON_ACK ++ [NULL_CHARACTER] ≠ LED_ON_ACK ∧
    (tcp_receive_msg_handler ⟨CYBSP_LED_STATE_OFF, true⟩ CyRslt.success
        (LED_ON_ACK ++ [NULL_CHARACTER])).flags.led_state = CYBSP_LED_STATE_ON := by
  decide

/-- C6 (amended): for every successful receive, the mirrored LED state is
set ON if and only if the payload's bytes strictly before its first NUL byte
are exactly the bytes of "LED ON ACK" (case-sensitive, no trimming); in
particular, for any NUL-free payload the comparison is byte-exact, so
"LED ON ACK " with a trailing space or "led on ack" set it OFF. -/
theorem C6_led_ack_truncated_at_first_nul (flags : ServerFlags) (payload : List Nat) :
    ((tcp_receive_msg_handler flags CyRslt.success payload).flags.led_state
        = CYBSP_LED_STATE_ON ↔ bytesBeforeNul payload = LED_ON_ACK) ∧
    (NULL_CHARACTER ∉ payload →
      ((tcp_receive_msg_handler flags CyRslt.success payload).flags.led_state
          = CYBSP_LED_STATE_ON ↔ payload = LED_ON_ACK)) := by
  have hq : NULL_CHARACTER ∉ LED_ON_ACK := by decide
  have hmain := cstr_eq_iff_bytesBeforeNul payload LED_ON_ACK hq
  have hled : (tcp_receive_msg_handler flags CyRslt.success payload).flags.led_state
      = cstr_eq (payload ++ [NULL_CHARACTER]) (LED_ON_ACK ++ [NULL_CHARACTER]) := by
    by_cases hc : cstr_eq (payload ++ [NULL_CHARACTER]) (LED_ON_ACK ++ [NULL_CHARACTER])
        = true <;>
      simp [tcp_receive_msg_handler, CYBSP_LED_STATE_ON, CYBSP_LED_STATE_OFF, hc]
  constructor
  · rw [hled]
    exact hmain
  · intro hnul
    have hself : bytesBeforeNul payload = payload := by
      refine List.takeWhile_eq_self_iff.mpr ?_
      intro x hx
      simp only [decide_eq_true_eq]
      intro h
      exact hnul (h ▸ hx)
    rw [hled, show (CYBSP_LED_STATE_ON : Bool) = true from rfl, hmain, hself]

/-- C6 (witness): the amended fact evaluated at the exact acknowledgement
payload: a NUL-free payload equal to "LED ON ACK" sets the LED state ON. -/
theorem C6_led_ack_witness :
    (tcp_receive_msg_handler ⟨CYBSP_LED_STATE_OFF, false⟩ CyRslt.success
        LED_ON_ACK).flags.led_state = CYBSP_LED_STATE_ON :=
  ((C6_led_ack_truncated_at_first_nul ⟨CYBSP_LED_STATE_OFF, false⟩ LED_ON_ACK).2
    (by decide)).mpr rfl

/-- C7 (confirmed): in any dispatch-loop iteration entered with
`client_connected = false`, the transport send path is never invoked, no
byte is delivered, no recovery path runs, and the global flags are left
unchanged — the command value is silently discarded. -/
theorem C7_idle_discards_command (flags : ServerFlags) (cmd : Nat) (r : CyRslt)
    (hconn : flags.client_connected = false) :
    (dispatch_iteration flags cmd r).send_called = false ∧
    (dispatch_iteration flags cmd r).sent_value = none ∧
    (dispatch_iteration flags cmd r).disconnect_called = false ∧
    (dispatch_iteration flags cmd r).delete_called = false ∧
    (dispatch_iteration flags cmd r).flags = flags := by
  refine ⟨?_, ?_, ?_, ?_, ?_⟩ <;> simp [dispatch_iteration, hconn]

/-- C7 (witness): the discard behaviour evaluated at a disconnected state. -/
theorem C7_idle_discards_witness :
    (dispatch_iteration ⟨CYBSP_LED_STATE_OFF, false⟩ LED_ON_CMD
        CyRslt.success).send_called = false :=
  (C7_idle_discards_command ⟨CYBSP_LED_STATE_OFF, false⟩ LED_ON_CMD CyRslt.success rfl).1

/-- C5 (confirmed): the retry loop of `connect_to_ethernet` calls
`cy_ecm_connect` at most `MAX_ETH_RETRY_COUNT = 3` times; when all three
consecutive attempts fail it returns the failing result without ever
installing `tcp_server_addr`, and the caller's init sequence then never
reaches `create_secure_tcp_server_socket`; when an attempt succeeds the loop
stops immediately and records the assigned address and port.  (The spec
names the constant `MAX_RETRY_COUNT`; the source calls it
`MAX_ETH_RETRY_COUNT`, with the same value 3.) -/
theorem C5_bring_up_retry_bound (attempt : Nat → CyRslt × Nat) (r2 r3 r4 : CyRslt) :
    (connect_to_ethernet attempt).attempts ≤ MAX_ETH_RETRY_COUNT ∧
    ((attempt 0).1 ≠ CyRslt.success → (attempt 1).1 ≠ CyRslt.success →
      (attempt 2).1 ≠ CyRslt.success →
      (connect_to_ethernet attempt).result ≠ CyRslt.success ∧
      (connect_to_ethernet attempt).tcp_server_addr = none ∧
      (connect_to_ethernet attempt).attempts = MAX_ETH_RETRY_COUNT ∧
      socket_setup_attempted (connect_to_ethernet attempt).result r2 r3 r4 = false) ∧
    ((attempt 0).1 = CyRslt.success →
      connect_to_ethernet attempt
        = { result := CyRslt.success
            tcp_server_addr := some ((attempt 0).2, TCP_SERVER_PORT)
            attempts := 1 }) ∧
    ((attempt 0).1 ≠ CyRslt.success → (attempt 1).1 = CyRslt.success →
      connect_to_ethernet attempt
        = { result := CyRslt.success
            tcp_server_addr := some ((attempt 1).2, TCP_SERVER_PORT)
            attempts := 2 }) ∧
    ((attempt 0).1 ≠ CyRslt.success → (attempt 1).1 ≠ CyRslt.success →
      (attempt 2).1 = CyRslt.success →
      connect_to_ethernet attempt
        = { result := CyRslt.success
            tcp_server_addr := some ((attempt 2).2, TCP_SERVER_PORT)
            attempts := 3 }) := by
  by_cases c0 : (attempt 0).1 = CyRslt.success <;>
    by_cases c1 : (attempt 1).1 = CyRslt.success <;>
    by_cases c2 : (attempt 2).1 = CyRslt.success <;>
    refine ⟨?_, ?_, ?_, ?_, ?_⟩ <;> intros <;>
    simp_all [connect_to_ethernet, connect_to_ethernet_loop, MAX_ETH_RETRY_COUNT,
      socket_setup_attempted]

/-- C5 (witness): three consecutive failures evaluated concretely. -/
theorem C5_bring_up_witness :
    (connect_to_ethernet (fun _ => (CyRslt.err 7, 0))).result ≠ CyRslt.success ∧
    (connect_to_ethernet (fun _ => (CyRslt.err 7, 0))).tcp_server_addr = none ∧
    (connect_to_ethernet (fun _ => (CyRslt.err 7, 0))).attempts = MAX_ETH_RETRY_COUNT ∧
    socket_setup_attempted (connect_to_ethernet (fun _ => (CyRslt.err 7, 0))).result
      CyRslt.success CyRslt.success CyRslt.success = false :=
  (C5_bring_up_retry_bound (fun _ => (CyRslt.err 7, 0)) CyRslt.success CyRslt.success
    CyRslt.success).2.1 (by decide) (by decide) (by decide)

/-- Every ISR invocation leaves `button_debouncing` false: the handler
clears the flag in the same invocation that set it (line 720), so the flag
is false at every reachable invocation entry (it starts false, line 165). -/
lemma isr_clears_debouncing (s : DebounceState) (tick : Nat) :
    (user_button_interrupt_handler s tick).state.button_debouncing = false := by
  by_cases hd : s.button_debouncing <;>
    by_cases ht : tick * portTICK_PERIOD_MS - s.button_debounce_timestamp ≥
        DEBOUNCE_TIME_MS * portTICK_PERIOD_MS <;>
    simp [user_button_interrupt_handler, hd, ht]

/-- The ISR never writes the mirrored LED flag. -/
lemma isr_preserves_led (s : DebounceState) (tick : Nat) :
    (user_button_interrupt_handler s tick).state.led_state = s.led_state := by
  by_cases hd : s.button_debouncing <;>
    by_cases ht : tick * portTICK_PERIOD_MS - s.button_debounce_timestamp ≥
        DEBOUNCE_TIME_MS * portTICK_PERIOD_MS <;>
    simp [user_button_interrupt_handler, hd, ht]

/-- Any command the ISR signals is computed as the complement of the current
mirrored LED state (lines 711-718). -/
lemma isr_notified_cmd (s : DebounceState) (tick : Nat) (c : Nat)
    (h : (user_button_interrupt_handler s tick).notified = some c) :
    c = if s.led_state = CYBSP_LED_STATE_ON then LED_OFF_CMD else LED_ON_CMD := by
  cases hls : s.led_state <;>
    by_cases hd : s.button_debouncing <;>
    by_cases ht : tick * portTICK_PERIOD_MS - s.button_debounce_timestamp ≥
        DEBOUNCE_TIME_MS * portTICK_PERIOD_MS <;>
    simp_all [user_button_interrupt_handler, CYBSP_LED_STATE_ON]

/-- In a run consisting only of button interrupts from a state whose
mirrored LED flag is OFF, every signalled command is `LED_ON_CMD`. -/
lemma isr_signals_all_on (s : DebounceState) (ticks : List Nat)
    (hled : s.led_state = false) :
    ∀ c ∈ isr_signals s ticks, c = LED_ON_CMD := by
  induction ticks generalizing s with
  | nil =>
    intro c hc
    simp [isr_signals] at hc
  | cons t ts ih =>
    intro c hc
    cases hn : (user_button_interrupt_handler s t).notified with
    | none =>
      simp [isr_signals, hn] at hc
      exact ih _ (by rw [isr_preserves_led]; exact hled) c hc
    | some c0 =>
      simp [isr_signals, hn] at hc
      rcases hc with rfl | hc
      · have hcmd := isr_notified_cmd s t c hn
        simp [hled, CYBSP_LED_STATE_ON] at hcmd
        exact hcmd
      · exact ih _ (by rw [isr_preserves_led]; exact hled) c hc

/-- C8 (confirmed): at every reachable ISR entry the in-progress flag is
false (see `isr_clears_debouncing`: the flag starts false and every
invocation leaves it false) and the recorded timestamp is from an earlier
tick, and under those reachability facts a raw falling edge is accepted —
with exactly one downstream signal, the `Option` result — iff at least
`DEBOUNCE_TIME_MS` milliseconds have elapsed since the last accepted press
timestamp; an accepted edge records the current time as the new timestamp
and leaves the in-progress flag cleared within the same invocation; a
rejected edge emits nothing and leaves the whole state unchanged. -/
theorem C8_debounce_acceptance (s : DebounceState) (tick : Nat)
    (hflag : s.button_debouncing = false)
    (hts : s.button_debounce_timestamp ≤ tick * portTICK_PERIOD_MS) :
    ((user_button_interrupt_handler s tick).notified.isSome = true ↔
      tick * portTICK_PERIOD_MS - s.button_debounce_timestamp ≥ DEBOUNCE_TIME_MS) ∧
    ((user_button_interrupt_handler s tick).notified.isSome = true →
      (user_button_interrupt_handler s tick).state.button_debounce_timestamp
          = tick * portTICK_PERIOD_MS ∧
      (user_button_interrupt_handler s tick).state.button_debouncing = false) ∧
    ((user_button_interrupt_handler s tick).notified = none →
      (user_button_interrupt_handler s tick).state = s) := by
  simp only [user_button_interrupt_handler, portTICK_PERIOD_MS, DEBOUNCE_TIME_MS,
    mul_one]
  by_cases ht : 100 ≤ tick - s.button_debounce_timestamp
  · refine ⟨?_, ?_, ?_⟩ <;> simp [hflag, ht]
  · refine ⟨?_, ?_, ?_⟩ <;> simp [hflag, ht]

/-- C8 (witness): acceptance evaluated 150 ms after startup. -/
theorem C8_debounce_witness :
    (user_button_interrupt_handler initDebounceState 150).state.button_debounce_timestamp
        = 150 * portTICK_PERIOD_MS ∧
    (user_button_interrupt_handler initDebounceState 150).state.button_debouncing = false :=
  (C8_debounce_acceptance initDebounceState 150 rfl (by decide)).2.1 (by decide)

/-- C10 (confirmed): every command the ISR signals is the complement of the
current mirrored LED state — `LED_OFF_CMD` (the byte `'0'`) when the state
is ON, `LED_ON_CMD` (the byte `'1'`) otherwise; the mirrored state starts
OFF (line 153), and since the ISR itself never changes it, every signal of a
button-only run from startup — in particular the first accepted press — is
`LED_ON_CMD = '1'`. -/
theorem C10_signalled_command_complements_led :
    (∀ (s : DebounceState) (tick c : Nat),
      (user_button_interrupt_handler s tick).notified = some c →
      c = if s.led_state = CYBSP_LED_STATE_ON then LED_OFF_CMD else LED_ON_CMD) ∧
    initDebounceState.led_state = CYBSP_LED_STATE_OFF ∧
    (∀ (ticks : List Nat) (c : Nat),
      c ∈ isr_signals initDebounceState ticks → c = LED_ON_CMD) :=
  ⟨fun s tick c h => isr_notified_cmd s tick c h, rfl,
   fun ticks c hc => isr_signals_all_on initDebounceState ticks rfl c hc⟩

/-- C10 (witness): the first accepted press from startup signals `'1'`. -/
theorem C10_witness :
    (user_button_interrupt_handler initDebounceState 150).notified = some LED_ON_CMD ∧
    LED_ON_CMD
      = if initDebounceState.led_state = CYBSP_LED_STATE_ON then LED_OFF_CMD
        else LED_ON_CMD :=
  ⟨by decide,
   C10_signalled_command_complements_led.1 initDebounceState 150 LED_ON_CMD (by decide)⟩

/-- Running an appended event sequence composes the runs. -/
lemma connRun_append (s : ConnState) (es1 es2 : List ConnEvent) :
    connRun s (es1 ++ es2) = connRun (connRun s es1) es2 := by
  induction es1 generalizing s with
  | nil => rfl
  | cons e es ih => simp [connRun, ih]

/-- Among the four event kinds, only the disconnect callback clears
`client_connected` (the peer-closed recovery paths leave it untouched). -/
lemma connStep_keeps_connected (s : ConnState) (e : ConnEvent)
    (hc : s.client_connected = true) (he : isDisconnectOrPeerClosed e = false) :
    (connStep s e).client_connected = true := by
  cases e with
  | connectEv h r =>
    by_cases hr : r = CyRslt.success <;> simp [connStep, hr, hc]
  | recvEv r payload =>
    by_cases hr : r = CyRslt.success
    · simp [connStep, hr, hc]
    · by_cases hr2 : r = CyRslt.closed <;> simp [connStep, hr, hr2, hc]
  | disconnectEv =>
    simp [isDisconnectOrPeerClosed] at he
  | sendEv cmd r =>
    by_cases hr : r = CyRslt.closed <;> simp_all [connStep]

/-- `client_connected` stays true across any event sequence free of
disconnect deliveries and peer-closed errors. -/
lemma connRun_keeps_connected (s : ConnState) (es : List ConnEvent)
    (hc : s.client_connected = true)
    (he : ∀ e ∈ es, isDisconnectOrPeerClosed e = false) :
    (connRun s es).client_connected = true := by
  induction es generalizing s with
  | nil => exact hc
  | cons e es ih =>
    simp only [connRun]
    exact ih _ (connStep_keeps_connected s e hc (he e (List.mem_cons_self e es)))
      (fun e2 h2 => he e2 (List.mem_cons_of_mem _ h2))

/-- Deleting the current client handle preserves the connection invariant. -/
lemma connInv_deleteCurrent (s : ConnState) (hinv : ConnInv s) :
    ConnInv { s with live_handles := deleteCurrent s } := by
  obtain ⟨hlen, hempty, hcur⟩ := hinv
  refine ⟨?_, ?_, ?_⟩
  · cases hh : s.client_handle with
    | none => simpa [deleteCurrent, hh] using hlen
    | some h0 =>
      simp only [deleteCurrent, hh]
      exact le_trans (List.erase_sublist h0 s.live_handles).length_le hlen
  · intro hc
    have hnil : s.live_handles = [] := hempty hc
    cases hh : s.client_handle with
    | none => simp [deleteCurrent, hh, hnil]
    | some h0 => simp [deleteCurrent, hh, hnil]
  · intro x hx
    cases hh : s.client_handle with
    | none =>
      simp only [deleteCurrent, hh] at hx
      exact hh ▸ hcur x hx
    | some h0 =>
      simp only [deleteCurrent, hh] at hx
      exact hh ▸ hcur x (List.mem_of_mem_erase hx)

/-- One well-formed step preserves the connection invariant. -/
lemma connInv_step (s : ConnState) (e : ConnEvent)
    (hwf : isConnectEv e = true → s.client_connected = false)
    (hinv : ConnInv s) : ConnInv (connStep s e) := by
  obtain ⟨hlen, hempty, hcur⟩ := hinv
  cases e with
  | connectEv h r =>
    by_cases hr : r = CyRslt.success
    · have hnil : s.live_handles = [] := hempty (hwf rfl)
      refine ⟨?_, ?_, ?_⟩ <;> simp [connStep, hr, hnil]
    · have hstep : connStep s (ConnEvent.connectEv h r) = s := by
        simp [connStep, hr]
      rw [hstep]
      exact ⟨hlen, hempty, hcur⟩
  | recvEv r payload =>
    by_cases hr : r = CyRslt.success
    · have h1 : (connStep s (ConnEvent.recvEv r payload)).live_handles
          = s.live_handles := by simp [connStep, hr]
      have h2 : (connStep s (ConnEvent.recvEv r payload)).client_connected
          = s.client_connected := by simp [connStep, hr]
      have h3 : (connStep s (ConnEvent.recvEv r payload)).client_handle
          = s.client_handle := by simp [connStep, hr]
      refine ⟨?_, ?_, ?_⟩
      · rw [h1]
        exact hlen
      · intro hc
        rw [h2] at hc
        rw [h1]
        exact hempty hc
      · intro x hx
        rw [h1] at hx
        rw [h3]
        exact hcur x hx
    · by_cases hr2 : r = CyRslt.closed
      · have hstep : connStep s (ConnEvent.recvEv r payload)
            = { s with live_handles := deleteCurrent s } := by
          simp [connStep, hr, hr2]
        rw [hstep]
        exact connInv_deleteCurrent s ⟨hlen, hempty, hcur⟩
      · have hstep : connStep s (ConnEvent.recvEv r payload) = s := by
          simp [connStep, hr, hr2]
        rw [hstep]
        exact ⟨hlen, hempty, hcur⟩
  | disconnectEv =>
    have hdel : deleteCurrent s = [] := by
      cases hl : s.live_handles with
      | nil =>
        cases hh : s.client_handle with
        | none => simp [deleteCurrent, hh, hl]
        | some h0 => simp [deleteCurrent, hh, hl]
      | cons a rest =>
        have ha : s.client_handle = some a := hcur a (by simp [hl])
        cases rest with
        | nil => simp [deleteCurrent, ha, hl]
        | cons b bs =>
          rw [hl] at hlen
          simp at hlen
    refine ⟨?_, ?_, ?_⟩ <;> simp [connStep, hdel]
  | sendEv cmd r =>
    by_cases hcc : s.client_connected = true
    · by_cases hr : r = CyRslt.closed
      · have hstep : connStep s (ConnEvent.sendEv cmd r)
            = { s with live_handles := deleteCurrent s } := by
          simp [connStep, hcc, hr]
        rw [hstep]
        exact connInv_deleteCurrent s ⟨hlen, hempty, hcur⟩
      · have hstep : connStep s (ConnEvent.sendEv cmd r) = s := by
          simp [connStep, hcc, hr]
        rw [hstep]
        exact ⟨hlen, hempty, hcur⟩
    · have hcc2 : s.client_connected = false := by
        cases hb : s.client_connected
        · rfl
        · exact absurd hb hcc
      have hstep : connStep s (ConnEvent.sendEv cmd r) = s := by
        simp [connStep, hcc2]
      rw [hstep]
      exact ⟨hlen, hempty, hcur⟩

/-- The connection invariant holds after every well-formed run from a state
satisfying it. -/
lemma connInv_run (s : ConnState) (es : List ConnEvent)
    (hwf : wfFrom s es = true) (hinv : ConnInv s) : ConnInv (connRun s es) := by
  induction es generalizing s with
  | nil => exact hinv
  | cons e es ih =>
    simp only [wfFrom, Bool.and_eq_true, Bool.or_eq_true, Bool.not_eq_true'] at hwf
    refine ih _ hwf.2 (connInv_step s e ?_ hinv)
    intro hce
    rcases hwf.1 with h | h
    · rw [hce] at h
      exact absurd h (by simp)
    · exact h

/-- C9 (confirmed): over every reachable sequence of connection events
(reachable = the transport delivers a connect request only after the
previous client's disconnect has run, spec §3), the live-handle count never
exceeds one; after a successful `tcp_connection_handler` the
`client_connected` flag reads true; and it keeps reading true across any
following events that are neither a disconnect delivery nor a peer-closed
error. -/
theorem C9_connected_until_disconnect_single_handle :
    (∀ es : List ConnEvent, wfFrom initConnState es = true →
      (connRun initConnState es).live_handles.length ≤ 1) ∧
    (∀ (es1 : List ConnEvent) (h : Nat),
      (connRun initConnState
          (es1 ++ [ConnEvent.connectEv h CyRslt.success])).client_connected = true) ∧
    (∀ (es1 : List ConnEvent) (h : Nat) (es2 : List ConnEvent),
      (∀ e ∈ es2, isDisconnectOrPeerClosed e = false) →
      (connRun initConnState
          (es1 ++ ConnEvent.connectEv h CyRslt.success :: es2)).client_connected
        = true) := by
  have hinit : ConnInv initConnState := by
    refine ⟨?_, ?_, ?_⟩ <;> simp [initConnState]
  refine ⟨?_, ?_, ?_⟩
  · intro es hwf
    exact (connInv_run initConnState es hwf hinit).1
  · intro es1 h
    rw [connRun_append]
    simp [connRun, connStep]
  · intro es1 h es2 he
    have hsplit : es1 ++ ConnEvent.connectEv h CyRslt.success :: es2
        = (es1 ++ [ConnEvent.connectEv h CyRslt.success]) ++ es2 := by simp
    rw [hsplit, connRun_append]
    refine connRun_keeps_connected _ es2 ?_ he
    rw [connRun_append]
    simp [connRun, connStep]

/-- C9 (witness): the invariant and the stability fact evaluated on concrete
event sequences. -/
theorem C9_witness :
    (connRun initConnState [ConnEvent.connectEv 5 CyRslt.success,
        ConnEvent.disconnectEv]).live_handles.length ≤ 1 ∧
    (connRun initConnState [ConnEvent.connectEv 5 CyRslt.success,
        ConnEvent.recvEv CyRslt.success LED_ON_ACK]).client_connected = true :=
  ⟨C9_connected_until_disconnect_single_handle.1
      [ConnEvent.connectEv 5 CyRslt.success, ConnEvent.disconnectEv] (by decide),
   C9_connected_until_disconnect_single_handle.2.2 [] 5
      [ConnEvent.recvEv CyRslt.success LED_ON_ACK] (by decide)⟩

end SecureTcpServer
